import Mathlib

/-!
Verification of the txupnp command-binding core (aioupnp/gateway.py and the
SOAP serialization fixed by aioupnp/serialization/test_soap.py).

The Python values that flow through `get_action_list` are nested structures of
strings, lists and dicts; we embed them as `PyVal`.  Fallible dictionary
indexing (`d[k]`, which raises `KeyError`/`TypeError` in Python) is embedded as
`Except String`.  Dicts are association lists with Python's insertion-order,
replace-in-place assignment semantics (`insertAssoc`).
-/

namespace TxUpnp

/-- A Python value as used by the SCPD documents: a string, a list, or a dict
with string keys. -/
inductive PyVal where
  | str : String → PyVal
  | list : List PyVal → PyVal
  | dict : List (String × PyVal) → PyVal

/-- First-match lookup in an association list (Python dict lookup; the dicts we
build keep keys unique). -/
def pyLookup : List (String × PyVal) → String → Option PyVal
  | [], _ => none
  | (k, v) :: rest, key => if k = key then some v else pyLookup rest key

/-- Python `len` on a string, list or dict. -/
def PyVal.len : PyVal → Nat
  | .str s => s.length
  | .list l => l.length
  | .dict d => d.length

/-- Python truthiness of a string, list or dict. -/
def PyVal.truthy : PyVal → Bool
  | .str s => s.length != 0
  | .list l => !l.isEmpty
  | .dict d => !d.isEmpty

/-- Python `isinstance(v, dict)`. -/
def PyVal.isDict : PyVal → Bool
  | .dict _ => true
  | _ => false

/-- Python `isinstance(v, list)`. -/
def PyVal.isList : PyVal → Bool
  | .list _ => true
  | _ => false

/-- Python `v[k]` for a string key: dict lookup raising `KeyError` when the key
is absent, `TypeError` when `v` is a string or a list. -/
def PyVal.getItem : PyVal → String → Except String PyVal
  | .dict d, k =>
    match pyLookup d k with
    | some v => .ok v
    | none => .error ("KeyError: " ++ k)
  | .str _, _ => .error "TypeError: string indices must be integers"
  | .list _, _ => .error "TypeError: list indices must be integers"

/-- Python `v.get(k)`: `None`-defaulting lookup on a dict, `AttributeError` on a
string or a list. -/
def PyVal.getDefault : PyVal → String → Except String (Option PyVal)
  | .dict d, k => .ok (pyLookup d k)
  | .str _, _ => .error "AttributeError: str has no attribute get"
  | .list _, _ => .error "AttributeError: list has no attribute get"

/-- Python iteration over a value: a list yields its elements, a dict yields its
keys, a string yields its one-character substrings. -/
def PyVal.iter : PyVal → List PyVal
  | .list l => l
  | .dict d => d.map (fun kv => PyVal.str kv.fst)
  | .str s => s.data.map (fun c => PyVal.str (String.mk [c]))

/-- The underlying list of a `PyVal.list`, else the empty list (used only after
an `isList` test). -/
def PyVal.asList : PyVal → List PyVal
  | .list l => l
  | _ => []

/-- Strip a leading namespace marker from one key. -/
def stripKey (pre s : String) : String :=
  if pre.data.isPrefixOf s.data then String.mk (s.data.drop pre.data.length) else s

mutual
/-- Modelled from the spec: `flatten_keys` (aioupnp.util, not under src/)
normalizes the XML namespace away, stripping the namespace marker
`\x7burn:schemas-upnp-org:service-1-0\x7d` from every key of the nested
mapping. -/
def flatten_keys (pre : String) : PyVal → PyVal
  | .str s => .str s
  | .list l => .list (flattenItems pre l)
  | .dict d => .dict (flattenFields pre d)

/-- `flatten_keys` mapped over the elements of a list value. -/
def flattenItems (pre : String) : List PyVal → List PyVal
  | [] => []
  | v :: rest => flatten_keys pre v :: flattenItems pre rest

/-- `flatten_keys` mapped over the entries of a dict value, stripping the
marker from each key. -/
def flattenFields (pre : String) :
    List (String × PyVal) → List (String × PyVal)
  | [] => []
  | (k, v) :: rest => (stripKey pre k, flatten_keys pre v) :: flattenFields pre rest
end

/-- Modelled from the spec: the namespace marker `"\x7b%s\x7d" % SERVICE` that
`get_action_list` strips (the constant `SERVICE` is aioupnp.constants, not
under src/). -/
def serviceMarker : String := "\x7burn:schemas-upnp-org:service-1-0\x7d"

/-- One extracted action entry: `(name, inputs, outputs)` exactly as the Python
code builds it (the components are whatever values the document held). -/
abbrev ActionEntry := PyVal × List PyVal × List PyVal

/-- Python `v == s` for a string literal `s`: true exactly when `v` is that
string. -/
def PyVal.eqStr : PyVal → String → Bool
  | .str s, t => s == t
  | _, _ => false

/-- The list comprehension `[i[name] for i in arg_dicts if i[direction] == d]`:
for each argument dict, read its `direction`, keep its `name` when the
direction matches; indexing errors propagate. -/
def argNames (dir : String) : List PyVal → Except String (List PyVal)
  | [] => .ok []
  | i :: rest => do
    let d ← i.getItem "direction"
    if d.eqStr dir then
      let n ← i.getItem "name"
      let ns ← argNames dir rest
      pure (n :: ns)
    else
      argNames dir rest

/-- The `for action in action_list["action"]` loop of `get_action_list`
(gateway.py lines 40-51): an action with a falsy or missing `argumentList`
contributes `(name, [], [])`; otherwise its arguments are normalized to a list
and partitioned by direction. -/
def actionLoop : List PyVal → Except String (List ActionEntry)
  | [] => .ok []
  | action :: rest => do
    let argList? ← action.getDefault "argumentList"
    let entry ←
      match argList? with
      | none => do
        let n ← action.getItem "name"
        pure ((n, [], []) : ActionEntry)
      | some argList =>
        if !argList.truthy then do
          let n ← action.getItem "name"
          pure ((n, [], []) : ActionEntry)
        else do
          let argListV ← action.getItem "argumentList"
          let argV ← argListV.getItem "argument"
          let arg_dicts := if argV.isList then argV.asList else [argV]
          let n ← action.getItem "name"
          let ins ← argNames "in" arg_dicts
          let outs ← argNames "out" arg_dicts
          pure ((n, ins, outs) : ActionEntry)
    let restEntries ← actionLoop rest
    pure (entry :: restEntries)

/-- `get_action_list` (gateway.py lines 21-52): flatten the namespace-qualified
keys, return `[]` when `actionList` is absent or empty, handle a bare-mapping
`action` in the dict branch (lines 31-39), and otherwise loop over the action
sequence. -/
def get_action_list (element_dict : List (String × PyVal)) :
    Except String (List ActionEntry) :=
  let service_info := flatten_keys serviceMarker (PyVal.dict element_dict)
  match service_info.getItem "actionList" with
  | .error _ => .ok []
  | .ok action_list =>
    if action_list.len = 0 then .ok []
    else do
      let actionV ← action_list.getItem "action"
      if actionV.isDict then do
        let argListV ← actionV.getItem "argumentList"
        let argV ← argListV.getItem "argument"
        let arg_dicts := if argV.isList then argV.asList else [argV]
        let n ← actionV.getItem "name"
        let ins ← argNames "in" arg_dicts
        let outs ← argNames "out" arg_dicts
        pure [((n, ins, outs) : ActionEntry)]
      else
        actionLoop actionV.iter

/-!
The command binder (`Gateway.register_commands`, gateway.py lines 155-194) and
the discovery pass (`Gateway.discover_commands`, lines 139-153).

`self.commands` is an `SCPDCommands` instance (aioupnp.commands, not under
src/); `getattr(self.commands, name)` succeeds exactly when `name` is one of
its statically known command attributes, so the static command surface is
embedded as the list `known` of command names.  The typed-annotation plumbing
(lines 168-180) only shapes the bound command's type tables and cannot raise
`AttributeError` for a known name, so the embedding records the bound command's
target data, which is what the claims are about.
-/

/-- One service as `register_commands` consumes it: `serviceType`,
`controlURL` and `SCPDURL`.  A missing SCPD-URL is the falsy empty string. -/
structure ServiceM where
  serviceType : String
  controlURL : String
  SCPDURL : String
deriving DecidableEq, Repr

/-- The bound command object built at gateway.py lines 181-183: it closes over
the gateway host and port, the service's control URL and service type, and the
discovered action's name, inputs and outputs. -/
structure SCPDCommand where
  base_ip : String
  port : Nat
  controlURL : String
  serviceType : String
  method : String
  inputs : List String
  outputs : List String
deriving DecidableEq, Repr

/-- First-match lookup in an association list. -/
def lookupA {α : Type} : List (String × α) → String → Option α
  | [], _ => none
  | (k, v) :: rest, key => if k = key then some v else lookupA rest key

/-- Python dict assignment `d[k] = v`: replace the value in place when the key
exists, else append the new entry (insertion order preserved). -/
def insertAssoc {α : Type} : List (String × α) → String → α → List (String × α)
  | [], k, v => [(k, v)]
  | (k', v') :: rest, k, v =>
    if k' = k then (k, v) :: rest else (k', v') :: insertAssoc rest k v

/-- The Gateway state that `register_commands` mutates: the commands object's
bound attributes (`setattr(self.commands, ...)`), `_registered_commands`
(method name → service type) and `_unsupported_actions` (service type → action
names). -/
structure CommandState where
  boundCommands : List (String × SCPDCommand)
  registered : List (String × String)
  unsupported : List (String × List String)
deriving DecidableEq, Repr

/-- The empty command state of a freshly constructed Gateway. -/
def CommandState.init : CommandState := ⟨[], [], []⟩

/-- One iteration of the `for name, inputs, outputs in action_list` loop
(gateway.py lines 165-194): a name with a statically known command is bound and
recorded in `_registered_commands`; an unknown name is appended to the
`_unsupported_actions` entry of the service's type, and the loop continues. -/
def bindAction (known : List String) (base_ip : String) (port : Nat)
    (sv : ServiceM) (st : CommandState)
    (a : String × List String × List String) : CommandState :=
  let (name, ins, outs) := a
  if name ∈ known then
    let cmd : SCPDCommand :=
      ⟨base_ip, port, sv.controlURL, sv.serviceType, name, ins, outs⟩
    { st with
      boundCommands := insertAssoc st.boundCommands name cmd,
      registered := insertAssoc st.registered name sv.serviceType }
  else
    { st with
      unsupported := insertAssoc st.unsupported sv.serviceType
        ((lookupA st.unsupported sv.serviceType).getD [] ++ [name]) }

/-- The whole binding loop of `register_commands` over a service's discovered
actions. -/
def bindActions (known : List String) (base_ip : String) (port : Nat)
    (sv : ServiceM) (actions : List (String × List String × List String))
    (st : CommandState) : CommandState :=
  actions.foldl (bindAction known base_ip port sv) st

/-- The names of the actions a binding pass cannot bind, in document order. -/
def unsupNames (known : List String) :
    List (String × List String × List String) → List String
  | [] => []
  | a :: rest =>
    if a.1 ∈ known then unsupNames known rest else a.1 :: unsupNames known rest

/-- The SCPD path normalization of gateway.py line 158: prepend `/` unless the
SCPD-URL already starts with it. -/
def normPath (s : String) : String :=
  (if "/".data.isPrefixOf s.data then "" else "/") ++ s

/-- `register_commands` for one service (gateway.py lines 155-194).  A service
whose SCPD-URL is falsy raises `UPnPError("no scpd url")` (lines 156-157); a
falsy fetched descriptor returns leaving the state unchanged (lines 160-161);
otherwise the discovered actions are bound.  `scpdActions` abstracts the
external `scpd_get` fetch composed with `get_action_list`: the action list the
service's SCPD document yields, or `none` when the fetch yields a falsy
document. -/
def register_commands_m (known : List String) (base_ip : String) (port : Nat)
    (scpdActions : String → Option (List (String × List String × List String)))
    (sv : ServiceM) (st : CommandState) : Except String CommandState :=
  if sv.SCPDURL = "" then .error "no scpd url"
  else
    match scpdActions (normPath sv.SCPDURL) with
    | none => .ok st
    | some acts => .ok (bindActions known base_ip port sv acts st)

/-- The `for service_type in self.services.keys()` loop of `discover_commands`
(gateway.py lines 152-153), which calls `register_commands` with no exception
handler: a raised error stops the loop at once, keeping the state already
accumulated (the Python object keeps its mutations), and the remaining
services are never processed. -/
def processServices (known : List String) (base_ip : String) (port : Nat)
    (scpdActions : String → Option (List (String × List String × List String))) :
    List ServiceM → CommandState → CommandState × Option String
  | [], st => (st, none)
  | sv :: rest, st =>
    match register_commands_m known base_ip port scpdActions sv st with
    | .error e => (st, some e)
    | .ok st' => processServices known base_ip port scpdActions rest st'

/-- A device as the Gateway's `devices` property keys it: by its UDN. -/
structure DeviceM where
  udn : String
deriving DecidableEq, Repr

/-- The derived state a discovery pass (re)writes on the Gateway: whether
`_device` is set, the `_devices` and `_services` lists, and the command
state. -/
structure GatewayDerived where
  deviceSet : Bool
  devices : List DeviceM
  services : List ServiceM
  cmd : CommandState
deriving DecidableEq, Repr

/-- The state of a freshly constructed Gateway (gateway.py lines 87-92). -/
def GatewayDerived.init : GatewayDerived := ⟨false, [], [], CommandState.init⟩

/-- The Python dict comprehension `\x7bservice.serviceType: service for service
in self._services\x7d`: keys in first-occurrence order, later duplicates
overwrite the value in place. -/
def buildServicesDict (l : List ServiceM) : List (String × ServiceM) :=
  l.foldl (fun acc sv => insertAssoc acc sv.serviceType sv) []

/-- The dict comprehension of the `devices` property, keyed by UDN. -/
def buildDevicesDict (l : List DeviceM) : List (String × DeviceM) :=
  l.foldl (fun acc d => insertAssoc acc d.udn d) []

/-- The `services` property (gateway.py lines 106-110): the empty dict until
`_device` is set, else the service-type-keyed dict of `_services`. -/
def services_prop (g : GatewayDerived) : List (String × ServiceM) :=
  if g.deviceSet then buildServicesDict g.services else []

/-- The `devices` property (gateway.py lines 112-116): the empty dict until
`_device` is set, else the UDN-keyed dict of `_devices`. -/
def devices_prop (g : GatewayDerived) : List (String × DeviceM) :=
  if g.deviceSet then buildDevicesDict g.devices else []

/-- `discover_commands` (gateway.py lines 139-153) acting on the derived
state.  `treeDevices` and `treeServices` are the device tree contents of the
fetched descriptor.  Modelled from the spec: the `Device` constructor
(aioupnp.device, not under src/) builds the device tree from the fetched
descriptor (gateway.py lines 146-151), and the derived device and service
collections are replaced wholesale on re-discovery, so the pass rewrites
`_devices` and `_services` with the new tree's contents.  The command state
is the Gateway's own (gateway.py lines 91-92, never reset by the pass); the
pass then runs `register_commands` over the values of the `services`
property. -/
def discover_commands_m (known : List String) (base_ip : String) (port : Nat)
    (scpdActions : String → Option (List (String × List String × List String)))
    (treeDevices : List DeviceM) (treeServices : List ServiceM)
    (g : GatewayDerived) : GatewayDerived × Option String :=
  let g1 : GatewayDerived :=
    { g with
      deviceSet := true,
      devices := treeDevices,
      services := treeServices }
  let svs := (services_prop g1).map Prod.snd
  let (st, err) := processServices known base_ip port scpdActions svs g1.cmd
  ({ g1 with cmd := st }, err)

/-!
Location parsing in `Gateway.__init__` (gateway.py lines 79-82).  The location
bytes are embedded as `List Char`.  `BASE_ADDRESS_REGEX` and `BASE_PORT_REGEX`
live in aioupnp.util (not under src/) and are modelled from the spec; the
derivations of `base_ip` (an `lstrip` of the character set of `"http://"`
followed by a split on `":"`) and of `path` (a split of the location on
`b"%s:%i/" % (base_ip, port)`) are the source's own lines 81-82.
-/

/-- A character of a host as the modelled location regexes accept it: a digit
or a dot. -/
def isAddrChar (c : Char) : Bool := c.isDigit || c = '.'

/-- Drop an exact leading pattern from a character list, or fail. -/
def dropExact : List Char → List Char → Option (List Char)
  | [], l => some l
  | _ :: _, [] => none
  | p :: ps, c :: cs => if p = c then dropExact ps cs else none

/-- Modelled from the spec: the location URL must contain a
`scheme://host:port/path` triple and parsing fails otherwise
(`BASE_ADDRESS_REGEX`/`BASE_PORT_REGEX` of aioupnp.util, not under src/).
Parses `http://<host>:<port>/<rest>` with a nonempty digits-and-dots host and
a nonempty digit port, returning the host and the port digits. -/
def locationHostPort (loc : List Char) : Option (List Char × List Char) :=
  match dropExact "http://".data loc with
  | none => none
  | some rest =>
    let host := rest.takeWhile isAddrChar
    if host.isEmpty then none
    else
      match rest.drop host.length with
      | ':' :: r2 =>
        let ds := r2.takeWhile Char.isDigit
        if ds.isEmpty then none
        else
          match r2.drop ds.length with
          | '/' :: _ => some (host, ds)
          | _ => none
      | _ => none

/-- Modelled from the spec: `BASE_ADDRESS_REGEX.findall(location)` yields the
leading `http://host:port` capture when the location parses, else nothing. -/
def findBaseAddress (loc : List Char) : Option (List Char) :=
  (locationHostPort loc).map (fun hp => "http://".data ++ hp.1 ++ ':' :: hp.2)

/-- Modelled from the spec: `BASE_PORT_REGEX.findall(location)` yields the port
digits capture when the location parses, else nothing. -/
def findBasePort (loc : List Char) : Option (List Char) :=
  (locationHostPort loc).map Prod.snd

/-- Python `bytes.lstrip(chars)`: drop leading characters while they belong to
the given character set. -/
def lstripChars (strip : List Char) : List Char → List Char
  | [] => []
  | c :: rest => if c ∈ strip then lstripChars strip rest else c :: rest

/-- Python `int()` of a digit string. -/
def natOfDigits (l : List Char) : Nat :=
  l.foldl (fun n c => 10 * n + (c.toNat - 48)) 0

/-- Python `b"%i" % n`: the decimal digits of a natural number. -/
def charsOfNat (n : Nat) : List Char := (Nat.repr n).data

/-- Python `bytes.split(sep)` with a nonempty separator, written with explicit
fuel; every step consumes at least one character, so the `length + 1` fuel
`pySplit` supplies never runs out.  The accumulator holds the current chunk
reversed. -/
def splitL (sep : List Char) : Nat → List Char → List Char → List (List Char)
  | 0, acc, l => [acc.reverse ++ l]
  | fuel + 1, acc, l =>
    if sep.isPrefixOf l then acc.reverse :: splitL sep fuel [] (l.drop sep.length)
    else
      match l with
      | [] => [acc.reverse]
      | c :: rest => splitL sep fuel (c :: acc) rest

/-- Python `l.split(sep)` for a nonempty `sep`. -/
def pySplit (l sep : List Char) : List (List Char) :=
  splitL sep (l.length + 1) [] l

/-- Whether `sep` occurs as a contiguous subsequence of `l` (Python
`sep in l`). -/
def containsSeq (sep : List Char) : List Char → Bool
  | [] => sep.isEmpty
  | c :: rest => sep.isPrefixOf (c :: rest) || containsSeq sep rest

/-- The location-derived fields of `Gateway.__init__` (gateway.py
lines 79-82). -/
structure GatewayInit where
  base_address : List Char
  port : Nat
  base_ip : List Char
  path : List Char
deriving DecidableEq, Repr

/-- Gateway construction from the location URL (gateway.py lines 79-82): an
empty `findall` makes the `[0]` indexing raise `IndexError` and the
constructor fail; the `[1]` indexing of the path split likewise.  `base_ip` is
`base_address.lstrip(b"http://").split(b":")[0]` and `path` is
`location.split(b"%s:%i/" % (base_ip, port))[1]`, exactly as in the source. -/
def gateway_init_location (location : List Char) : Except String GatewayInit :=
  match findBaseAddress location with
  | none => .error "IndexError: base address"
  | some ba =>
    match findBasePort location with
    | none => .error "IndexError: base port"
    | some pds =>
      let port := natOfDigits pds
      let base_ip := (lstripChars "http://".data ba).takeWhile (· != ':')
      match (pySplit location (base_ip ++ ':' :: charsOfNat port ++ ['/'])).get? 1 with
      | some path => .ok ⟨ba, port, base_ip, path⟩
      | none => .error "IndexError: path"

/-!
The SOAP request serializer.  `serialize_soap_post` itself is not under src/;
only its test (aioupnp/serialization/test_soap.py) is, and that test pins the
exact bytes.  All characters involved are ASCII, so the byte length the
`Content-Length` header must carry equals the string length.
-/

/-- Modelled from the spec: the SOAP 1.1 envelope of `serialize_soap_post`
(aioupnp.serialization.soap, not under src/; its exact bytes are pinned by
test_soap.py): XML declaration, envelope with encoding style, and a body
element `u:<method>` in the service-type namespace holding one element per
parameter name with its stringified value. -/
def soap_body (method st : String) (paramNames : List String)
    (kwargs : List (String × String)) : String :=
  "<?xml version=\"1.0\"?>\r\n" ++
  "<s:Envelope xmlns:s=\"http://schemas.xmlsoap.org/soap/envelope/\" " ++
  "s:encodingStyle=\"http://schemas.xmlsoap.org/soap/encoding/\">" ++
  "<s:Body><u:" ++ method ++ " xmlns:u=\"" ++ st ++ "\">" ++
  String.join (paramNames.map
    (fun n => "<" ++ n ++ ">" ++ (lookupA kwargs n).getD "" ++ "</" ++ n ++ ">")) ++
  "</u:" ++ method ++ "></s:Body></s:Envelope>\r\n"

/-- Modelled from the spec: `serialize_soap_post` (aioupnp.serialization.soap,
not under src/; its exact bytes are pinned by test_soap.py): the POST request
line, the headers `Host`, `User-Agent`, `Content-Length` (the exact byte
length of the body that follows), `Content-Type`, `SOAPAction`, `Connection`,
`Cache-Control` and `Pragma` in that order and casing, a blank line, then the
SOAP envelope. -/
def serialize_soap_post (method : String) (paramNames : List String)
    (st gatewayAddress path : String) (kwargs : List (String × String)) :
    String :=
  let body := soap_body method st paramNames kwargs
  "POST " ++ path ++ " HTTP/1.1\r\n" ++
  "Host: " ++ gatewayAddress ++ "\r\n" ++
  "User-Agent: python3/aioupnp, UPnP/1.0, MiniUPnPc/1.9\r\n" ++
  "Content-Length: " ++ toString body.length ++ "\r\n" ++
  "Content-Type: text/xml\r\n" ++
  "SOAPAction: \"" ++ st ++ "#" ++ method ++ "\"\r\n" ++
  "Connection: Close\r\n" ++
  "Cache-Control: no-cache\r\n" ++
  "Pragma: no-cache\r\n\r\n" ++
  body

/-! Association-list lemmas shared by the binder proofs. -/

theorem lookupA_insert_self {α : Type} (l : List (String × α)) (k : String) (v : α) :
    lookupA (insertAssoc l k v) k = some v := by
  induction l with
  | nil => simp [insertAssoc, lookupA]
  | cons kv rest ih =>
    obtain ⟨k', v'⟩ := kv
    by_cases h : k' = k
    · simp [insertAssoc, lookupA, h]
    · simp [insertAssoc, lookupA, h, ih]

theorem lookupA_insert_ne {α : Type} (l : List (String × α)) (k k' : String) (v : α)
    (h : k' ≠ k) : lookupA (insertAssoc l k v) k' = lookupA l k' := by
  have hk : k ≠ k' := fun hh => h hh.symm
  induction l with
  | nil => simp [insertAssoc, lookupA, hk]
  | cons kv rest ih =>
    obtain ⟨k0, v0⟩ := kv
    by_cases h0 : k0 = k
    · subst h0
      simp [insertAssoc, lookupA, hk]
    · simp [insertAssoc, lookupA, h0, ih]

/-! Behavior of the binding loop, by induction over the action list. -/

/-- Once a name is bound with the pass's constant target data, every later
iteration keeps it bound with that data (later duplicates rebind it with the
same host, port, control URL and service type). -/
theorem bindAction_preserves_bound (known : List String) (ip : String) (port : Nat)
    (sv : ServiceM) (st : CommandState) (a : String × List String × List String)
    (name : String)
    (h : ∃ ins outs, lookupA st.boundCommands name
          = some ⟨ip, port, sv.controlURL, sv.serviceType, name, ins, outs⟩
        ∧ lookupA st.registered name = some sv.serviceType) :
    ∃ ins outs, lookupA (bindAction known ip port sv st a).boundCommands name
        = some ⟨ip, port, sv.controlURL, sv.serviceType, name, ins, outs⟩
      ∧ lookupA (bindAction known ip port sv st a).registered name
        = some sv.serviceType := by
  obtain ⟨n, ins0, outs0⟩ := a
  obtain ⟨ins, outs, hb, hr⟩ := h
  by_cases hk : n ∈ known
  · by_cases hn : name = n
    · subst hn
      exact ⟨ins0, outs0, by simp [bindAction, hk, lookupA_insert_self],
        by simp [bindAction, hk, lookupA_insert_self]⟩
    · exact ⟨ins, outs, by simpa [bindAction, hk, lookupA_insert_ne _ _ _ _ hn] using hb,
        by simpa [bindAction, hk, lookupA_insert_ne _ _ _ _ hn] using hr⟩
  · exact ⟨ins, outs, by simpa [bindAction, hk] using hb,
      by simpa [bindAction, hk] using hr⟩

/-- A name already in the service's unsupported ledger stays there for the rest
of the pass. -/
theorem bindAction_preserves_unsup (known : List String) (ip : String) (port : Nat)
    (sv : ServiceM) (st : CommandState) (a : String × List String × List String)
    (name : String)
    (h : name ∈ (lookupA st.unsupported sv.serviceType).getD []) :
    name ∈ (lookupA (bindAction known ip port sv st a).unsupported
      sv.serviceType).getD [] := by
  obtain ⟨n, ins0, outs0⟩ := a
  by_cases hk : n ∈ known
  · simpa [bindAction, hk] using h
  · simp only [bindAction, hk, if_neg]
    simp [lookupA_insert_self]
    exact Or.inl h

/-- Folding the rest of the action list preserves the bound-command fact. -/
theorem bindActions_preserves_bound (known : List String) (ip : String) (port : Nat)
    (sv : ServiceM) (acts : List (String × List String × List String))
    (st : CommandState) (name : String)
    (h : ∃ ins outs, lookupA st.boundCommands name
          = some ⟨ip, port, sv.controlURL, sv.serviceType, name, ins, outs⟩
        ∧ lookupA st.registered name = some sv.serviceType) :
    ∃ ins outs, lookupA (bindActions known ip port sv acts st).boundCommands name
        = some ⟨ip, port, sv.controlURL, sv.serviceType, name, ins, outs⟩
      ∧ lookupA (bindActions known ip port sv acts st).registered name
        = some sv.serviceType := by
  induction acts generalizing st with
  | nil => simpa [bindActions] using h
  | cons a rest ih =>
    have := bindAction_preserves_bound known ip port sv st a name h
    simpa [bindActions] using ih _ this

/-- Folding the rest of the action list preserves ledger membership. -/
theorem bindActions_preserves_unsup (known : List String) (ip : String) (port : Nat)
    (sv : ServiceM) (acts : List (String × List String × List String))
    (st : CommandState) (name : String)
    (h : name ∈ (lookupA st.unsupported sv.serviceType).getD []) :
    name ∈ (lookupA (bindActions known ip port sv acts st).unsupported
      sv.serviceType).getD [] := by
  induction acts generalizing st with
  | nil => simpa [bindActions] using h
  | cons a rest ih =>
    have := bindAction_preserves_unsup known ip port sv st a name h
    simpa [bindActions] using ih _ this

/-- A known action occurring in the list ends the pass bound to the pass's
host, port, control URL and service type, and recorded in
`_registered_commands` under the service's type. -/
theorem bindActions_bound_of_mem (known : List String) (ip : String) (port : Nat)
    (sv : ServiceM) (acts : List (String × List String × List String))
    (st : CommandState) (name : String) (ins outs : List String)
    (hmem : (name, ins, outs) ∈ acts) (hk : name ∈ known) :
    ∃ ins' outs', lookupA (bindActions known ip port sv acts st).boundCommands name
        = some ⟨ip, port, sv.controlURL, sv.serviceType, name, ins', outs'⟩
      ∧ lookupA (bindActions known ip port sv acts st).registered name
        = some sv.serviceType := by
  induction acts generalizing st with
  | nil => cases hmem
  | cons a rest ih =>
    rcases List.mem_cons.mp hmem with heq | hrest
    · subst heq
      have hbound : ∃ i o, lookupA (bindAction known ip port sv st (name, ins, outs)).boundCommands name
            = some ⟨ip, port, sv.controlURL, sv.serviceType, name, i, o⟩
          ∧ lookupA (bindAction known ip port sv st (name, ins, outs)).registered name
            = some sv.serviceType :=
        ⟨ins, outs, by simp [bindAction, hk, lookupA_insert_self],
          by simp [bindAction, hk, lookupA_insert_self]⟩
      simpa [bindActions] using
        bindActions_preserves_bound known ip port sv rest _ name hbound
    · simpa [bindActions] using ih _ hrest

/-- An unknown action occurring in the list ends the pass recorded in the
unsupported ledger under the service's type. -/
theorem bindActions_unsup_of_mem (known : List String) (ip : String) (port : Nat)
    (sv : ServiceM) (acts : List (String × List String × List String))
    (st : CommandState) (name : String) (ins outs : List String)
    (hmem : (name, ins, outs) ∈ acts) (hk : name ∉ known) :
    name ∈ (lookupA (bindActions known ip port sv acts st).unsupported
      sv.serviceType).getD [] := by
  induction acts generalizing st with
  | nil => cases hmem
  | cons a rest ih =>
    rcases List.mem_cons.mp hmem with heq | hrest
    · subst heq
      have hstep : name ∈ (lookupA (bindAction known ip port sv st (name, ins, outs)).unsupported
          sv.serviceType).getD [] := by
        simp [bindAction, hk, lookupA_insert_self]
      simpa [bindActions] using
        bindActions_preserves_unsup known ip port sv rest _ name hstep
    · simpa [bindActions] using ih _ hrest

/-- The binding pass never creates a bound-command entry for a name outside the
statically known set. -/
theorem bindActions_bound_none (known : List String) (ip : String) (port : Nat)
    (sv : ServiceM) (acts : List (String × List String × List String))
    (st : CommandState) (name : String) (hk : name ∉ known)
    (hb : lookupA st.boundCommands name = none)
    (hr : lookupA st.registered name = none) :
    lookupA (bindActions known ip port sv acts st).boundCommands name = none
    ∧ lookupA (bindActions known ip port sv acts st).registered name = none := by
  induction acts generalizing st with
  | nil => exact ⟨by simpa [bindActions] using hb, by simpa [bindActions] using hr⟩
  | cons a rest ih =>
    obtain ⟨n, ins0, outs0⟩ := a
    have step : lookupA (bindAction known ip port sv st (n, ins0, outs0)).boundCommands name = none
        ∧ lookupA (bindAction known ip port sv st (n, ins0, outs0)).registered name = none := by
      by_cases hn : n ∈ known
      · have hne : name ≠ n := fun h => hk (h ▸ hn)
        constructor
        · simpa [bindAction, hn, lookupA_insert_ne _ _ _ _ hne] using hb
        · simpa [bindAction, hn, lookupA_insert_ne _ _ _ _ hne] using hr
      · constructor
        · simpa [bindAction, hn] using hb
        · simpa [bindAction, hn] using hr
    simpa [bindActions, List.foldl] using ih _ step.1 step.2

/-- One binding pass appends exactly its unknown action names to whatever the
service type's ledger entry already held. -/
theorem bindActions_unsupported_append (known : List String) (ip : String)
    (port : Nat) (sv : ServiceM)
    (acts : List (String × List String × List String)) (st : CommandState) :
    (lookupA (bindActions known ip port sv acts st).unsupported
        sv.serviceType).getD []
      = (lookupA st.unsupported sv.serviceType).getD []
        ++ unsupNames known acts := by
  induction acts generalizing st with
  | nil => simp [bindActions, unsupNames]
  | cons a rest ih =>
    obtain ⟨n, ins0, outs0⟩ := a
    have hfold :
        bindActions known ip port sv ((n, ins0, outs0) :: rest) st
        = bindActions known ip port sv rest
            (bindAction known ip port sv st (n, ins0, outs0)) := rfl
    by_cases hn : n ∈ known
    · have h2 := ih (bindAction known ip port sv st (n, ins0, outs0))
      rw [hfold, h2]
      simp [bindAction, hn, unsupNames]
    · have h2 := ih (bindAction known ip port sv st (n, ins0, outs0))
      rw [hfold, h2]
      have huns : (bindAction known ip port sv st (n, ins0, outs0)).unsupported
          = insertAssoc st.unsupported sv.serviceType
            ((lookupA st.unsupported sv.serviceType).getD [] ++ [n]) := by
        simp [bindAction, hn]
      rw [huns, lookupA_insert_self]
      simp [unsupNames, hn, List.append_assoc]

/-- A service whose SCPD-URL is present never raises in `register_commands`:
the only `raise` is the missing-SCPD-URL guard; a falsy descriptor returns the
state unchanged and a descriptor binds. -/
theorem register_ok_of_scpdurl (known : List String) (ip : String) (port : Nat)
    (f : String → Option (List (String × List String × List String)))
    (sv : ServiceM) (st : CommandState) (h : sv.SCPDURL ≠ "") :
    ∃ st', register_commands_m known ip port f sv st = .ok st' := by
  unfold register_commands_m
  rw [if_neg h]
  cases f (normPath sv.SCPDURL) with
  | none => exact ⟨st, rfl⟩
  | some acts => exact ⟨_, rfl⟩

/-- A single-service discovery pass from any starting derived state: the
device and service collections are rebuilt from the new tree, and one binding
pass runs on top of the existing command state (which the pass never
resets). -/
theorem discover_once (known : List String) (ip : String) (port : Nat)
    (f : String → Option (List (String × List String × List String)))
    (sv : ServiceM) (acts : List (String × List String × List String))
    (devs : List DeviceM) (g : GatewayDerived) (hurl : sv.SCPDURL ≠ "")
    (hf : f (normPath sv.SCPDURL) = some acts) :
    discover_commands_m known ip port f devs [sv] g
      = ({ deviceSet := true, devices := devs, services := [sv],
           cmd := bindActions known ip port sv acts g.cmd }, none) := by
  have hsvc : buildServicesDict [sv] = [(sv.serviceType, sv)] := rfl
  unfold discover_commands_m
  simp only [services_prop, if_pos, hsvc, List.map_cons, List.map_nil]
  simp [processServices, register_commands_m, hurl, hf]

/-! Character-list lemmas for the location-parsing proof. -/

theorem dropExact_append (p t : List Char) : dropExact p (p ++ t) = some t := by
  induction p with
  | nil => rfl
  | cons c rest ih => simp [dropExact, ih]

theorem takeWhile_all_stop (p : Char → Bool) (l1 l2 : List Char) (c : Char)
    (h1 : ∀ x ∈ l1, p x = true) (h2 : p c = false) :
    (l1 ++ c :: l2).takeWhile p = l1 := by
  induction l1 with
  | nil => simp [List.takeWhile, h2]
  | cons d rest ih =>
    have hd : p d = true := h1 d (by simp)
    simp only [List.cons_append, List.takeWhile, hd]
    simpa using ih (fun x hx => h1 x (by simp [hx]))

theorem isPrefixOf_self_append (l t : List Char) : l.isPrefixOf (l ++ t) = true := by
  induction l with
  | nil => simp [List.isPrefixOf]
  | cons c rest ih => simp [List.isPrefixOf, ih]

theorem isPrefixOf_cons_ne (a b : Char) (l m : List Char) (h : a ≠ b) :
    (a :: l).isPrefixOf (b :: m) = false := by
  simp [List.isPrefixOf, h]

theorem not_addrChar_of_mem_http (x : Char) (hx : x ∈ "http://".data) :
    isAddrChar x = false := by
  have h7 : "http://".data = ['h', 't', 't', 'p', ':', '/', '/'] := rfl
  rw [h7] at hx
  fin_cases hx <;> rfl

theorem lstrip_append_all (strip l1 l2 : List Char) (h : ∀ c ∈ l1, c ∈ strip) :
    lstripChars strip (l1 ++ l2) = lstripChars strip l2 := by
  induction l1 with
  | nil => rfl
  | cons c rest ih =>
    have hc : c ∈ strip := h c (by simp)
    simp only [List.cons_append, lstripChars, hc, if_pos]
    exact ih (fun x hx => h x (by simp [hx]))

theorem lstrip_cons_not (strip : List Char) (c : Char) (l : List Char)
    (h : c ∉ strip) : lstripChars strip (c :: l) = c :: l := by
  simp [lstripChars, h]

theorem splitL_no_occur (sep : List Char) (hsep : sep ≠ []) :
    ∀ (l : List Char) (fuel : Nat) (acc : List Char),
      containsSeq sep l = false → splitL sep fuel acc l = [acc.reverse ++ l] := by
  intro l
  induction l with
  | nil =>
    intro fuel acc _
    cases fuel with
    | zero => rfl
    | succ n =>
      have hp : sep.isPrefixOf ([] : List Char) = false := by
        cases sep with
        | nil => exact absurd rfl hsep
        | cons a as => rfl
      simp [splitL, hp]
  | cons c rest ih =>
    intro fuel acc hno
    simp only [containsSeq, Bool.or_eq_false_iff] at hno
    obtain ⟨h1, h2⟩ := hno
    cases fuel with
    | zero => rfl
    | succ n =>
      have hstep : splitL sep (n + 1) acc (c :: rest)
          = splitL sep n (c :: acc) rest := by
        simp [splitL, h1]
      rw [hstep, ih n (c :: acc) h2]
      simp

theorem splitL_match (sep : List Char) (fuel : Nat)
    (acc rest : List Char) :
    splitL sep (fuel + 1) acc (sep ++ rest)
      = acc.reverse :: splitL sep fuel [] rest := by
  have h1 : sep.isPrefixOf (sep ++ rest) = true := isPrefixOf_self_append sep rest
  simp [splitL, h1, List.drop_left]

theorem splitL_skip_block (sep : List Char) (c : Char) (sep' : List Char)
    (hsep : sep = c :: sep') :
    ∀ (block : List Char), (∀ x ∈ block, x ≠ c) →
    ∀ (fuel : Nat) (acc l : List Char),
      splitL sep (block.length + fuel) acc (block ++ l)
        = splitL sep fuel (block.reverse ++ acc) l := by
  intro block
  induction block with
  | nil => intro _ fuel acc l; simp
  | cons b bs ih =>
    intro hblock fuel acc l
    have hb : b ≠ c := hblock b (by simp)
    have hpre : sep.isPrefixOf (b :: (bs ++ l)) = false := by
      rw [hsep]
      exact isPrefixOf_cons_ne c b sep' (bs ++ l) (fun h => hb h.symm)
    have hlen : (b :: bs).length + fuel = (bs.length + fuel) + 1 := by
      simp [List.length_cons]
      omega
    rw [List.cons_append, hlen]
    have hstep : splitL sep ((bs.length + fuel) + 1) acc (b :: (bs ++ l))
        = splitL sep (bs.length + fuel) (b :: acc) (bs ++ l) := by
      simp [splitL, hpre]
    rw [hstep, ih (fun x hx => hblock x (by simp [hx])) fuel (b :: acc) l]
    simp

theorem pySplit_block (block sep rest : List Char) (c : Char) (sep' : List Char)
    (hsep : sep = c :: sep') (hblock : ∀ x ∈ block, x ≠ c)
    (hno : containsSeq sep rest = false) :
    pySplit (block ++ sep ++ rest) sep = [block, rest] := by
  have hsep_ne : sep ≠ [] := by
    rw [hsep]
    exact List.cons_ne_nil c sep'
  have hlen : (block ++ sep ++ rest).length + 1
      = block.length + (sep.length + rest.length + 1) := by
    simp [List.length_append]
    omega
  unfold pySplit
  rw [hlen, List.append_assoc]
  rw [splitL_skip_block sep c sep' hsep block hblock
    (sep.length + rest.length + 1) [] (sep ++ rest)]
  rw [splitL_match sep (sep.length + rest.length) (block.reverse ++ []) rest]
  rw [splitL_no_occur sep hsep_ne rest (sep.length + rest.length) [] hno]
  simp

theorem locationHostPort_wellformed (host ds rest : List Char)
    (hhost : ∀ c ∈ host, isAddrChar c = true) (hne : host ≠ [])
    (hds : ∀ c ∈ ds, c.isDigit = true) (hdne : ds ≠ []) :
    locationHostPort ("http://".data ++ host ++ ':' :: ds ++ '/' :: rest)
      = some (host, ds) := by
  have hassoc : "http://".data ++ host ++ ':' :: ds ++ '/' :: rest
      = "http://".data ++ (host ++ ':' :: (ds ++ '/' :: rest)) := by
    simp [List.append_assoc]
  have ht1 : (host ++ ':' :: (ds ++ '/' :: rest)).takeWhile isAddrChar = host :=
    takeWhile_all_stop isAddrChar host (ds ++ '/' :: rest) ':' hhost (by decide)
  have ht2 : (ds ++ '/' :: rest).takeWhile Char.isDigit = ds :=
    takeWhile_all_stop Char.isDigit ds rest '/' hds (by decide)
  have hhe : host.isEmpty = false := by
    cases host with
    | nil => exact absurd rfl hne
    | cons a as => rfl
  have hde : ds.isEmpty = false := by
    cases ds with
    | nil => exact absurd rfl hdne
    | cons a as => rfl
  unfold locationHostPort
  rw [hassoc, dropExact_append]
  simp only [ht1, hhe, Bool.false_eq_true, if_false, List.drop_left, ht2, hde]

/-! The claim theorems. -/

set_option maxRecDepth 10000

/-- C1: for every discovered action `(name, inputs, outputs)` of a service, the
binding loop looks the name up among the statically known commands: a known
name ends the pass bound to a command closing over the gateway host, port, the
service's control URL and service type, registered under that name; an unknown
name ends the pass recorded in the unsupported ledger under the service's
type.  The loop is a total function, so processing always continues with the
next action without raising. -/
theorem claim_C1_bind_or_ledger (known : List String) (ip : String) (port : Nat)
    (sv : ServiceM) (acts : List (String × List String × List String))
    (st : CommandState) (name : String) (ins outs : List String)
    (hmem : (name, ins, outs) ∈ acts) :
    (name ∈ known →
      ∃ ins' outs', lookupA (bindActions known ip port sv acts st).boundCommands name
          = some ⟨ip, port, sv.controlURL, sv.serviceType, name, ins', outs'⟩
        ∧ lookupA (bindActions known ip port sv acts st).registered name
          = some sv.serviceType)
    ∧ (name ∉ known →
      name ∈ (lookupA (bindActions known ip port sv acts st).unsupported
        sv.serviceType).getD []) :=
  ⟨fun hk => bindActions_bound_of_mem known ip port sv acts st name ins outs hmem hk,
   fun hk => bindActions_unsup_of_mem known ip port sv acts st name ins outs hmem hk⟩

/-- C1 witness: a pass over one known and one unknown action, from the fresh
state. -/
theorem claim_C1_bind_or_ledger_witness :
    (∃ ins' outs',
      lookupA (bindActions ["GetExternalIPAddress"] "10.0.0.1" 80
          ⟨"urn:WANIPConnection", "/ctl", "/scpd"⟩
          [("GetExternalIPAddress", [], ["NewExternalIPAddress"]), ("GetFoo", [], [])]
          CommandState.init).boundCommands "GetExternalIPAddress"
        = some ⟨"10.0.0.1", 80, "/ctl", "urn:WANIPConnection",
            "GetExternalIPAddress", ins', outs'⟩
      ∧ lookupA (bindActions ["GetExternalIPAddress"] "10.0.0.1" 80
          ⟨"urn:WANIPConnection", "/ctl", "/scpd"⟩
          [("GetExternalIPAddress", [], ["NewExternalIPAddress"]), ("GetFoo", [], [])]
          CommandState.init).registered "GetExternalIPAddress"
        = some "urn:WANIPConnection")
    ∧ "GetFoo" ∈ (lookupA (bindActions ["GetExternalIPAddress"] "10.0.0.1" 80
          ⟨"urn:WANIPConnection", "/ctl", "/scpd"⟩
          [("GetExternalIPAddress", [], ["NewExternalIPAddress"]), ("GetFoo", [], [])]
          CommandState.init).unsupported "urn:WANIPConnection").getD [] :=
  ⟨(claim_C1_bind_or_ledger ["GetExternalIPAddress"] "10.0.0.1" 80
      ⟨"urn:WANIPConnection", "/ctl", "/scpd"⟩ _ CommandState.init
      "GetExternalIPAddress" [] ["NewExternalIPAddress"] (by decide)).1 (by decide),
   (claim_C1_bind_or_ledger ["GetExternalIPAddress"] "10.0.0.1" 80
      ⟨"urn:WANIPConnection", "/ctl", "/scpd"⟩ _ CommandState.init
      "GetFoo" [] [] (by decide)).2 (by decide)⟩

/-- C2 counterexample: the code records in the unsupported ledger the
*discovered* actions without a known command — not, as the claim states, the
known commands without a discovered action.  Here `AddPortMapping` is known,
no discovered action matches it, and after the pass it does not appear in the
ledger (the discovered `GetExternalIPAddress` does instead). -/
theorem claim_C2_counterexample :
    "AddPortMapping" ∈ (["AddPortMapping"] : List String)
    ∧ "AddPortMapping"
        ∉ ([("GetExternalIPAddress", [], [])] :
            List (String × List String × List String)).map Prod.fst
    ∧ "AddPortMapping"
        ∉ (lookupA (bindActions ["AddPortMapping"] "10.0.0.1" 80
            ⟨"urn:WANIPConnection", "/ctl", "/scpd"⟩
            [("GetExternalIPAddress", [], [])] CommandState.init).unsupported
            "urn:WANIPConnection").getD []
    ∧ (bindActions ["AddPortMapping"] "10.0.0.1" 80
          ⟨"urn:WANIPConnection", "/ctl", "/scpd"⟩
          [("GetExternalIPAddress", [], [])] CommandState.init).unsupported
        = [("urn:WANIPConnection", ["GetExternalIPAddress"])] := by decide

/-- C2 amended: the ledger direction is the reverse of the claim's — every
*discovered* action whose name has no statically known command ends the pass
in the unsupported ledger keyed by the service's type, and appears in neither
the bound-command table nor `_registered_commands`. -/
theorem claim_C2_discovered_unknown (known : List String) (ip : String)
    (port : Nat) (sv : ServiceM)
    (acts : List (String × List String × List String))
    (name : String) (ins outs : List String)
    (hmem : (name, ins, outs) ∈ acts) (hk : name ∉ known) :
    name ∈ (lookupA (bindActions known ip port sv acts CommandState.init).unsupported
        sv.serviceType).getD []
    ∧ lookupA (bindActions known ip port sv acts CommandState.init).boundCommands
        name = none
    ∧ lookupA (bindActions known ip port sv acts CommandState.init).registered
        name = none :=
  ⟨bindActions_unsup_of_mem known ip port sv acts CommandState.init name ins outs hmem hk,
   (bindActions_bound_none known ip port sv acts CommandState.init name hk rfl rfl).1,
   (bindActions_bound_none known ip port sv acts CommandState.init name hk rfl rfl).2⟩

/-- C2 amended witness: the unknown discovered action `GetFoo` from the C1
scenario. -/
theorem claim_C2_discovered_unknown_witness :
    "GetFoo" ∈ (lookupA (bindActions ["GetExternalIPAddress"] "10.0.0.1" 80
        ⟨"urn:WANIPConnection", "/ctl", "/scpd"⟩
        [("GetFoo", ["A"], ["B"])] CommandState.init).unsupported
        "urn:WANIPConnection").getD []
    ∧ lookupA (bindActions ["GetExternalIPAddress"] "10.0.0.1" 80
        ⟨"urn:WANIPConnection", "/ctl", "/scpd"⟩
        [("GetFoo", ["A"], ["B"])] CommandState.init).boundCommands "GetFoo" = none
    ∧ lookupA (bindActions ["GetExternalIPAddress"] "10.0.0.1" 80
        ⟨"urn:WANIPConnection", "/ctl", "/scpd"⟩
        [("GetFoo", ["A"], ["B"])] CommandState.init).registered "GetFoo" = none :=
  claim_C2_discovered_unknown ["GetExternalIPAddress"] "10.0.0.1" 80
    ⟨"urn:WANIPConnection", "/ctl", "/scpd"⟩ [("GetFoo", ["A"], ["B"])]
    "GetFoo" ["A"] ["B"] (by decide) (by decide)

/-- C5: the claim holds for the sequence form — an action in a list with no
`argumentList` yields `(name, [], [])` — but the single bare-mapping form it
also covers raises: the dict branch of `get_action_list` (gateway.py line 32)
indexes `argumentList` unconditionally, so an argument-less bare action makes
the extractor raise `KeyError` instead of returning `(name, [], [])`. -/
theorem claim_C5_bare_action_raises :
    get_action_list [("actionList", PyVal.dict [("action",
        PyVal.dict [("name", PyVal.str "GetStatusInfo")])])]
      = .error "KeyError: argumentList"
    ∧ get_action_list [("actionList", PyVal.dict [("action",
        PyVal.list [PyVal.dict [("name", PyVal.str "GetStatusInfo")]])])]
      = .ok [(PyVal.str "GetStatusInfo", [], [])] := ⟨rfl, rfl⟩

/-- C6: the bare-mapping/one-element-sequence equivalence fails for an action
without an `argumentList` (the bare form raises `KeyError` where the sequence
form succeeds, gateway.py line 32); the argument half of the claim does hold —
with an `argumentList` present, a single bare-mapping argument and a
one-element argument sequence yield the same specs, in both action forms. -/
theorem claim_C6_bare_vs_sequence :
    get_action_list [("actionList", PyVal.dict [("action",
        PyVal.dict [("name", PyVal.str "GetUDN")])])]
      ≠ get_action_list [("actionList", PyVal.dict [("action",
        PyVal.list [PyVal.dict [("name", PyVal.str "GetUDN")]])])]
    ∧ get_action_list [("actionList", PyVal.dict [("action",
        PyVal.dict [("name", PyVal.str "M"), ("argumentList", PyVal.dict [("argument",
          PyVal.dict [("name", PyVal.str "A"), ("direction", PyVal.str "in")])])])])]
      = get_action_list [("actionList", PyVal.dict [("action",
        PyVal.list [PyVal.dict [("name", PyVal.str "M"), ("argumentList", PyVal.dict [("argument",
          PyVal.list [PyVal.dict [("name", PyVal.str "A"), ("direction", PyVal.str "in")]])])]])])]
    ∧ get_action_list [("actionList", PyVal.dict [("action",
        PyVal.dict [("name", PyVal.str "M"), ("argumentList", PyVal.dict [("argument",
          PyVal.dict [("name", PyVal.str "A"), ("direction", PyVal.str "in")])])])])]
      = .ok [(PyVal.str "M", [PyVal.str "A"], [])] := by
  refine ⟨fun h => ?_, rfl, rfl⟩
  rw [show get_action_list [("actionList", PyVal.dict [("action",
      PyVal.dict [("name", PyVal.str "GetUDN")])])]
    = .error "KeyError: argumentList" from rfl] at h
  rw [show get_action_list [("actionList", PyVal.dict [("action",
      PyVal.list [PyVal.dict [("name", PyVal.str "GetUDN")]])])]
    = .ok [(PyVal.str "GetUDN", [], [])] from rfl] at h
  exact Except.noConfusion h

/-- C7: a document whose flattened mapping has no `actionList` key, or whose
`actionList` value is empty (a dict, list or the vendor-quirk empty string of
length zero), extracts to the empty action list without error. -/
theorem claim_C7_empty_action_list (element_dict : List (String × PyVal)) :
    (∀ e, (flatten_keys serviceMarker (PyVal.dict element_dict)).getItem "actionList"
        = .error e → get_action_list element_dict = .ok [])
    ∧ (∀ v, (flatten_keys serviceMarker (PyVal.dict element_dict)).getItem "actionList"
        = .ok v → v.len = 0 → get_action_list element_dict = .ok []) := by
  constructor
  · intro e he
    simp [get_action_list, he]
  · intro v hv hlen
    simp [get_action_list, hv, hlen]

/-- C7 witness: a document with no `actionList` key, and one with the
empty-string `actionList`. -/
theorem claim_C7_empty_action_list_witness :
    get_action_list [] = .ok []
    ∧ get_action_list [("actionList", PyVal.str "")] = .ok [] :=
  ⟨(claim_C7_empty_action_list []).1 "KeyError: actionList" rfl,
   (claim_C7_empty_action_list [("actionList", PyVal.str "")]).2 (PyVal.str "") rfl rfl⟩

/-- C9: serializing `GetExternalIPAddress` with no parameters for
`urn:schemas-upnp-org:service:WANIPConnection:1` at host `10.0.0.1` and
control path `/soap.cgi?service=WANIPConn1` yields exactly the wire bytes the
test pins: request line, the eight headers in order and casing with
`Content-Length: 285` (the envelope's exact byte length), a blank line, and
the SOAP envelope with the empty `u:GetExternalIPAddress` body element. -/
theorem claim_C9_serialize_exact :
    serialize_soap_post "GetExternalIPAddress" []
        "urn:schemas-upnp-org:service:WANIPConnection:1" "10.0.0.1"
        "/soap.cgi?service=WANIPConn1" []
      = "POST /soap.cgi?service=WANIPConn1 HTTP/1.1\r\nHost: 10.0.0.1\r\nUser-Agent: python3/aioupnp, UPnP/1.0, MiniUPnPc/1.9\r\nContent-Length: 285\r\nContent-Type: text/xml\r\nSOAPAction: \"urn:schemas-upnp-org:service:WANIPConnection:1#GetExternalIPAddress\"\r\nConnection: Close\r\nCache-Control: no-cache\r\nPragma: no-cache\r\n\r\n<?xml version=\"1.0\"?>\r\n<s:Envelope xmlns:s=\"http://schemas.xmlsoap.org/soap/envelope/\" s:encodingStyle=\"http://schemas.xmlsoap.org/soap/encoding/\"><s:Body><u:GetExternalIPAddress xmlns:u=\"urn:schemas-upnp-org:service:WANIPConnection:1\"></u:GetExternalIPAddress></s:Body></s:Envelope>\r\n"
      := rfl

/-- C10: while `_device` is unset the `services` and `devices` properties
return empty mappings, whatever the internal `_services` and `_devices` lists
hold. -/
theorem claim_C10_accessors_empty (g : GatewayDerived) (h : g.deviceSet = false) :
    services_prop g = [] ∧ devices_prop g = [] := by
  simp [services_prop, devices_prop, h]

/-- C10 witness: a gateway with nonempty internal lists but `_device`
unset. -/
theorem claim_C10_accessors_empty_witness :
    services_prop ⟨false, [⟨"uuid:dev0"⟩], [⟨"urn:svcA", "/ctlA", "/scpdA"⟩],
        CommandState.init⟩ = []
    ∧ devices_prop ⟨false, [⟨"uuid:dev0"⟩], [⟨"urn:svcA", "/ctlA", "/scpdA"⟩],
        CommandState.init⟩ = [] :=
  claim_C10_accessors_empty
    ⟨false, [⟨"uuid:dev0"⟩], [⟨"urn:svcA", "/ctlA", "/scpdA"⟩], CommandState.init⟩ rfl

/-- C3 counterexample: `register_commands` raises `UPnPError("no scpd url")`
for a service without an SCPD-URL and `discover_commands` calls it with no
exception handler, so the first such service aborts the whole loop: here the
second service has a known action available, yet nothing is bound.  The claim
says the fault is recorded for the one service and every other service is
still processed. -/
theorem claim_C3_counterexample :
    processServices ["GetExternalIPAddress"] "10.0.0.1" 80
        (fun p => if p = "/scpd2" then some [("GetExternalIPAddress", [], [])] else none)
        [⟨"urn:svc1", "/ctl1", ""⟩, ⟨"urn:svc2", "/ctl2", "/scpd2"⟩]
        CommandState.init
      = (CommandState.init, some "no scpd url")
    ∧ lookupA (processServices ["GetExternalIPAddress"] "10.0.0.1" 80
        (fun p => if p = "/scpd2" then some [("GetExternalIPAddress", [], [])] else none)
        [⟨"urn:svc1", "/ctl1", ""⟩, ⟨"urn:svc2", "/ctl2", "/scpd2"⟩]
        CommandState.init).1.registered "GetExternalIPAddress" = none := by decide

/-- C3 amended: a service lacking an SCPD-URL makes `register_commands` raise
`UPnPError("no scpd url")`, which `discover_commands` does not catch: the
binding pass aborts there — services earlier in the iteration keep their
bindings (the state reached before the fault survives on the Gateway), and
the services after it are never processed. -/
theorem claim_C3_abort (known : List String) (ip : String) (port : Nat)
    (f : String → Option (List (String × List String × List String)))
    (pre post : List ServiceM) (s : ServiceM) (st : CommandState)
    (hs : s.SCPDURL = "") (hpre : ∀ t ∈ pre, t.SCPDURL ≠ "") :
    processServices known ip port f (pre ++ s :: post) st
      = ((processServices known ip port f pre st).1, some "no scpd url") := by
  induction pre generalizing st with
  | nil => simp [processServices, register_commands_m, hs]
  | cons t rest ih =>
    have ht : t.SCPDURL ≠ "" := hpre t (by simp)
    obtain ⟨st', hok⟩ := register_ok_of_scpdurl known ip port f t st ht
    simp only [List.cons_append, processServices, hok]
    exact ih st' (fun u hu => hpre u (List.mem_cons_of_mem _ hu))

/-- C3 amended witness: one good service before and one after the faulty one;
the pass stops with the good first service bound and the error raised. -/
theorem claim_C3_abort_witness :
    processServices ["GetExternalIPAddress"] "10.0.0.1" 80
        (fun p => if p = "/scpd1" ∨ p = "/scpd3"
          then some [("GetExternalIPAddress", [], [])] else none)
        [⟨"urn:svc1", "/ctl1", "/scpd1"⟩, ⟨"urn:svc2", "/ctl2", ""⟩,
          ⟨"urn:svc3", "/ctl3", "/scpd3"⟩] CommandState.init
      = ((processServices ["GetExternalIPAddress"] "10.0.0.1" 80
          (fun p => if p = "/scpd1" ∨ p = "/scpd3"
            then some [("GetExternalIPAddress", [], [])] else none)
          [⟨"urn:svc1", "/ctl1", "/scpd1"⟩] CommandState.init).1,
         some "no scpd url") :=
  claim_C3_abort ["GetExternalIPAddress"] "10.0.0.1" 80
    (fun p => if p = "/scpd1" ∨ p = "/scpd3"
      then some [("GetExternalIPAddress", [], [])] else none)
    [⟨"urn:svc1", "/ctl1", "/scpd1"⟩] [⟨"urn:svc3", "/ctl3", "/scpd3"⟩]
    ⟨"urn:svc2", "/ctl2", ""⟩ CommandState.init rfl (by decide)

/-- C4 counterexample: a second `discover_commands` pass over the same data
does not equal a fresh pass.  The device and service collections are rebuilt,
but the command state is the Gateway's own dicts, never cleared by the pass
(gateway.py lines 91-92 initialize them once; lines 190-192 append), so the
service type's `_unsupported_actions` list grows by appending the same name
again: `["Foo", "Foo"]` after the second pass where a fresh pass yields
`["Foo"]`. -/
theorem claim_C4_counterexample :
    (discover_commands_m [] "10.0.0.1" 80
        (fun p => if p = "/scpd.xml" then some [("Foo", [], [])] else none)
        [] [⟨"urn:svcX", "/ctl", "/scpd.xml"⟩]
        (discover_commands_m [] "10.0.0.1" 80
          (fun p => if p = "/scpd.xml" then some [("Foo", [], [])] else none)
          [] [⟨"urn:svcX", "/ctl", "/scpd.xml"⟩] GatewayDerived.init).1).1
      ≠ (discover_commands_m [] "10.0.0.1" 80
        (fun p => if p = "/scpd.xml" then some [("Foo", [], [])] else none)
        [] [⟨"urn:svcX", "/ctl", "/scpd.xml"⟩] GatewayDerived.init).1
    ∧ (discover_commands_m [] "10.0.0.1" 80
        (fun p => if p = "/scpd.xml" then some [("Foo", [], [])] else none)
        [] [⟨"urn:svcX", "/ctl", "/scpd.xml"⟩] GatewayDerived.init).1.cmd.unsupported
      = [("urn:svcX", ["Foo"])]
    ∧ (discover_commands_m [] "10.0.0.1" 80
        (fun p => if p = "/scpd.xml" then some [("Foo", [], [])] else none)
        [] [⟨"urn:svcX", "/ctl", "/scpd.xml"⟩]
        (discover_commands_m [] "10.0.0.1" 80
          (fun p => if p = "/scpd.xml" then some [("Foo", [], [])] else none)
          [] [⟨"urn:svcX", "/ctl", "/scpd.xml"⟩] GatewayDerived.init).1).1.cmd.unsupported
      = [("urn:svcX", ["Foo", "Foo"])]
    ∧ (discover_commands_m [] "10.0.0.1" 80
        (fun p => if p = "/scpd.xml" then some [("Foo", [], [])] else none)
        [] [⟨"urn:svcX", "/ctl", "/scpd.xml"⟩]
        (discover_commands_m [] "10.0.0.1" 80
          (fun p => if p = "/scpd.xml" then some [("Foo", [], [])] else none)
          [] [⟨"urn:svcX", "/ctl", "/scpd.xml"⟩] GatewayDerived.init).1).1.services
      = (discover_commands_m [] "10.0.0.1" 80
        (fun p => if p = "/scpd.xml" then some [("Foo", [], [])] else none)
        [] [⟨"urn:svcX", "/ctl", "/scpd.xml"⟩] GatewayDerived.init).1.services := by
  decide

/-- C4 amended: on a repeated discovery pass the device and service
collections are rebuilt wholesale, but the command registry is merged, not
rebuilt — `_registered_commands` and `_unsupported_actions` are never cleared,
so the unsupported ledger's entry for the service's type becomes the first
pass's unknown names with the same names appended again, instead of equalling
a fresh pass's. -/
theorem claim_C4_accumulate (known : List String) (ip : String) (port : Nat)
    (f : String → Option (List (String × List String × List String)))
    (sv : ServiceM) (acts : List (String × List String × List String))
    (hurl : sv.SCPDURL ≠ "") (hf : f (normPath sv.SCPDURL) = some acts) :
    (discover_commands_m known ip port f [] [sv] GatewayDerived.init).1.services
      = [sv]
    ∧ (discover_commands_m known ip port f [] [sv]
        (discover_commands_m known ip port f [] [sv] GatewayDerived.init).1).1.services
      = [sv]
    ∧ (lookupA (discover_commands_m known ip port f [] [sv]
        GatewayDerived.init).1.cmd.unsupported sv.serviceType).getD []
      = unsupNames known acts
    ∧ (lookupA (discover_commands_m known ip port f [] [sv]
        (discover_commands_m known ip port f [] [sv]
          GatewayDerived.init).1).1.cmd.unsupported sv.serviceType).getD []
      = unsupNames known acts ++ unsupNames known acts := by
  have h1 := discover_once known ip port f sv acts [] GatewayDerived.init hurl hf
  rw [h1]
  have h2 := discover_once known ip port f sv acts []
    { deviceSet := true, devices := [], services := [sv],
      cmd := bindActions known ip port sv acts GatewayDerived.init.cmd }
    hurl hf
  rw [h2]
  refine ⟨rfl, rfl, ?_, ?_⟩
  · simpa [GatewayDerived.init, CommandState.init, lookupA] using
      bindActions_unsupported_append known ip port sv acts CommandState.init
  · have hb := bindActions_unsupported_append known ip port sv acts
      (bindActions known ip port sv acts CommandState.init)
    have hb0 := bindActions_unsupported_append known ip port sv acts CommandState.init
    simp only [GatewayDerived.init]
    rw [hb, hb0]
    simp [CommandState.init, lookupA]

/-- C4 amended witness: the concrete two-pass scenario of the counterexample,
via the amended theorem. -/
theorem claim_C4_accumulate_witness :
    (discover_commands_m [] "10.0.0.1" 80
        (fun p => if p = "/scpd.xml" then some [("Foo", [], [])] else none)
        [] [⟨"urn:svcX", "/ctl", "/scpd.xml"⟩] GatewayDerived.init).1.services
      = [⟨"urn:svcX", "/ctl", "/scpd.xml"⟩]
    ∧ (discover_commands_m [] "10.0.0.1" 80
        (fun p => if p = "/scpd.xml" then some [("Foo", [], [])] else none)
        [] [⟨"urn:svcX", "/ctl", "/scpd.xml"⟩]
        (discover_commands_m [] "10.0.0.1" 80
          (fun p => if p = "/scpd.xml" then some [("Foo", [], [])] else none)
          [] [⟨"urn:svcX", "/ctl", "/scpd.xml"⟩] GatewayDerived.init).1).1.services
      = [⟨"urn:svcX", "/ctl", "/scpd.xml"⟩]
    ∧ (lookupA (discover_commands_m [] "10.0.0.1" 80
        (fun p => if p = "/scpd.xml" then some [("Foo", [], [])] else none)
        [] [⟨"urn:svcX", "/ctl", "/scpd.xml"⟩]
        GatewayDerived.init).1.cmd.unsupported "urn:svcX").getD []
      = unsupNames [] [("Foo", [], [])]
    ∧ (lookupA (discover_commands_m [] "10.0.0.1" 80
        (fun p => if p = "/scpd.xml" then some [("Foo", [], [])] else none)
        [] [⟨"urn:svcX", "/ctl", "/scpd.xml"⟩]
        (discover_commands_m [] "10.0.0.1" 80
          (fun p => if p = "/scpd.xml" then some [("Foo", [], [])] else none)
          [] [⟨"urn:svcX", "/ctl", "/scpd.xml"⟩]
          GatewayDerived.init).1).1.cmd.unsupported "urn:svcX").getD []
      = unsupNames [] [("Foo", [], [])] ++ unsupNames [] [("Foo", [], [])] :=
  claim_C4_accumulate [] "10.0.0.1" 80
    (fun p => if p = "/scpd.xml" then some [("Foo", [], [])] else none)
    ⟨"urn:svcX", "/ctl", "/scpd.xml"⟩ [("Foo", [], [])] (by decide) (by decide)

/-- C8: a location URL that does not parse as `http://host:port/path` makes
the constructor raise (`findall(...)[0]` raises `IndexError`) and no Gateway
is produced; a location of that shape yields the base address
`http://host:port`, the host as `base_ip`, the numeric port, and the
descriptor path taken from the URL (the hypotheses pin the digit string to
its canonical numeral and keep `host:port/` from recurring inside the path,
matching what the source's `%i` re-formatting and `split(...)[1]` chunking
assume). -/
theorem claim_C8_location_parse (location : List Char) :
    (locationHostPort location = none →
      ∃ e, gateway_init_location location = .error e)
    ∧ (∀ host ds rest,
        (∀ c ∈ host, isAddrChar c = true) → host ≠ [] →
        (∀ c ∈ ds, c.isDigit = true) → ds ≠ [] →
        charsOfNat (natOfDigits ds) = ds →
        containsSeq (host ++ ':' :: ds ++ ['/']) rest = false →
        location = "http://".data ++ host ++ ':' :: ds ++ '/' :: rest →
        gateway_init_location location
          = .ok ⟨"http://".data ++ host ++ ':' :: ds, natOfDigits ds, host, rest⟩) := by
  constructor
  · intro h
    exact ⟨"IndexError: base address",
      by simp [gateway_init_location, findBaseAddress, h]⟩
  · intro host ds rest hhost hne hds hdne hnum hno hloc
    subst hloc
    have hp := locationHostPort_wellformed host ds rest hhost hne hds hdne
    obtain ⟨c, host', rfl⟩ : ∃ c host', host = c :: host' := by
      cases host with
      | nil => exact absurd rfl hne
      | cons c h => exact ⟨c, h, rfl⟩
    have hc : isAddrChar c = true := hhost c (by simp)
    have hcs : c ∉ "http://".data := fun hmem =>
      absurd hc (by simp [not_addrChar_of_mem_http c hmem])
    have hip : lstripChars "http://".data
        ("http://".data ++ (c :: host') ++ ':' :: ds) = c :: (host' ++ ':' :: ds) := by
      rw [List.append_assoc,
        lstrip_append_all "http://".data "http://".data _ (fun x hx => hx),
        List.cons_append, lstrip_cons_not _ _ _ hcs]
    have htk : (c :: (host' ++ ':' :: ds)).takeWhile (· != ':') = c :: host' := by
      have := takeWhile_all_stop (· != ':') (c :: host') ds ':'
        (fun x hx => by
          have hx' : isAddrChar x = true := hhost x hx
          have hxne : x ≠ ':' := fun he => absurd hx' (by rw [he]; decide)
          simpa using hxne)
        (by decide)
      simpa using this
    have hsplit : pySplit
        ("http://".data ++ (c :: host') ++ ':' :: ds ++ '/' :: rest)
        ((c :: host') ++ ':' :: ds ++ ['/']) = ["http://".data, rest] := by
      have hassoc : "http://".data ++ (c :: host') ++ ':' :: ds ++ '/' :: rest
          = "http://".data ++ ((c :: host') ++ ':' :: ds ++ ['/']) ++ rest := by
        simp
      rw [hassoc]
      exact pySplit_block "http://".data _ rest c ((host' ++ ':' :: ds) ++ ['/'])
        (by simp) (fun x hx => fun he =>
          absurd hc (by rw [← he]; simp [not_addrChar_of_mem_http x hx]))
        hno
    have hba : findBaseAddress
        ("http://".data ++ (c :: host') ++ ':' :: ds ++ '/' :: rest)
        = some ("http://".data ++ (c :: host') ++ ':' :: ds) := by
      unfold findBaseAddress
      rw [hp]
      rfl
    have hpd : findBasePort
        ("http://".data ++ (c :: host') ++ ':' :: ds ++ '/' :: rest)
        = some ds := by
      unfold findBasePort
      rw [hp]
      rfl
    unfold gateway_init_location
    rw [hba, hpd]
    simp only [hip, htk, hnum, hsplit]
    rfl

/-- C8 witness: a malformed location fails construction; a well-formed one
derives every field from the URL. -/
theorem claim_C8_location_parse_witness :
    (∃ e, gateway_init_location "garbage".data = .error e)
    ∧ gateway_init_location "http://10.0.0.1:80/desc.xml".data
      = .ok ⟨"http://10.0.0.1:80".data, 80, "10.0.0.1".data, "desc.xml".data⟩ :=
  ⟨(claim_C8_location_parse "garbage".data).1 (by decide),
   (claim_C8_location_parse "http://10.0.0.1:80/desc.xml".data).2
     "10.0.0.1".data "80".data "desc.xml".data
     (by decide) (by decide) (by decide) (by decide) (by decide) (by decide)
     (by decide)⟩

end TxUpnp
